import Mathlib

/-!
Shallow embedding of the picpay user-CRUD service: the `User` entity and
validator (src/models/user.py), the user controller
(src/controllers/user_controller.py) and the auth controller
(src/controllers/auth_controller.py).

Request payloads are JSON dictionaries; we embed the keys the code reads
(`name`, `email`, `password` as strings, `age` as an int / string / null
value, `is_active` as a boolean) as optional fields, plus the list of any
other keys present, which matter only for the emptiness test of the dictionary.
The database session is embedded as an explicit state: a list of stored
rows, the next auto-assigned primary key, and the current clock tick used
for timestamps. External collaborators (bcrypt, the JWT library) are
modelled from the spec where noted.
-/

namespace PicPay

/-- A JSON value supplied for the `age` key: an integer, a string, or null. -/
inductive AgeVal where
  | aInt (n : Int)
  | aStr (s : String)
  | aNull
deriving DecidableEq, Repr

/-- A request-body dictionary, restricted to the keys the code reads.
`extraKeys` records any other keys present (they only affect emptiness). -/
structure Payload where
  name : Option String
  email : Option String
  password : Option String
  age : Option AgeVal
  is_active : Option Bool
  extraKeys : List String
deriving DecidableEq, Repr

/-- The Python test `not data` on the request dictionary: true when the dict is
empty (or the body was absent, which the code treats the same way). -/
def Payload.isEmpty (d : Payload) : Bool :=
  d.name.isNone && d.email.isNone && d.password.isNone && d.age.isNone &&
    d.is_active.isNone && d.extraKeys.isEmpty

/-- Embedding of Python `str.strip()`: drop whitespace from both ends. -/
def pyStrip (s : String) : String :=
  ⟨(((s.data.dropWhile Char.isWhitespace).reverse).dropWhile
      Char.isWhitespace).reverse⟩

/-- Python `'@' in s` membership test on a string. -/
def containsChar (s : String) (c : Char) : Bool :=
  s.data.contains c

/-- A non-empty all-digit character run read as a decimal number. -/
def digitsToNat? (l : List Char) : Option Nat :=
  if l.isEmpty then none
  else if l.all (fun c => c.isDigit) then
    some (l.foldl (fun acc c => acc * 10 + (c.toNat - 48)) 0)
  else none

/-- An optional sign followed by decimal digits. -/
def pyIntChars : List Char → Option Int
  | [] => none
  | c :: cs =>
    if c = '-' then (digitsToNat? cs).map (fun n => -(n : Int))
    else if c = '+' then (digitsToNat? cs).map (fun n => (n : Int))
    else (digitsToNat? (c :: cs)).map (fun n => (n : Int))

/-- Embedding of Python `int(s)` on a string: surrounding whitespace is
stripped, an optional sign is followed by decimal digits. -/
def pyInt (s : String) : Option Int :=
  pyIntChars (pyStrip s).data

/-- Python `int(v)` on an age value: ints pass through, strings are parsed,
anything else raises (modelled as `none`, caught by the `except` branch). -/
def parseAge : AgeVal → Option Int
  | .aInt n => some n
  | .aStr s => pyInt s
  | .aNull => none

/-- The `try: age = int(...); 0..150 except: ...` block shared verbatim by
`User.validate_data` and `UserController.update_user`: `none` when the age
key is absent or null or the check passes, otherwise the error message. -/
def ageError (d : Payload) : Option String :=
  match d.age with
  | none => none
  | some .aNull => none
  | some a =>
    match parseAge a with
    | none => some "Idade deve ser um número válido"
    | some k =>
      if k < 0 || k > 150 then some "Idade deve estar entre 0 e 150 anos"
      else none

/-- `User.validate_data(data, require_password)` from src/models/user.py:
returns `(is_valid, error_message)`. -/
def validate_data (d : Payload) (require_password : Bool) : Bool × Option String :=
  if d.isEmpty then (false, some "Dados não fornecidos")
  else
    match d.name with
    | none => (false, some "Nome é obrigatório")
    | some n =>
      if pyStrip n = "" then (false, some "Nome é obrigatório")
      else
        match d.email with
        | none => (false, some "Email é obrigatório")
        | some e =>
          if pyStrip e = "" then (false, some "Email é obrigatório")
          else if ¬ containsChar e '@' then (false, some "Email deve ter formato válido")
          else
            let pwCheck : Option (Bool × Option String) :=
              if require_password then
                match d.password with
                | none => some (false, some "Senha é obrigatória")
                | some p =>
                  if pyStrip p = "" then some (false, some "Senha é obrigatória")
                  else if p.length < 6 then
                    some (false, some "Senha deve ter pelo menos 6 caracteres")
                  else none
              else none
            match pwCheck with
            | some r => r
            | none =>
              match ageError d with
              | some msg => (false, some msg)
              | none => (true, none)

/-- Modelled from the spec: the external bcrypt library. A stored hash
carries the fresh random salt and a digest of the password; `4.2` of the
spec asserts the digest determines the password (verification succeeds
exactly for the hashed password), so the digest is embedded as the password
itself — an injective stand-in for the collision-free adaptive hash. -/
structure BcryptHash where
  salt : String
  digest : String
deriving DecidableEq, Repr

/-- Modelled from the spec: `bcrypt.hashpw(password, gensalt())`. The fresh
random salt is an explicit parameter (non-determinism made explicit). -/
def bcrypt_hashpw (password : String) (salt : String) : BcryptHash :=
  { salt := salt, digest := password }

/-- Modelled from the spec: `bcrypt.checkpw(password, stored)` re-derives
the digest with the stored salt and compares. -/
def bcrypt_checkpw (password : String) (stored : BcryptHash) : Bool :=
  stored.digest == password

/-- A row of the `users` table (the persisted attributes of `User`).
Timestamps are clock ticks. `age` keeps the raw value the code assigned
(the controllers store the raw age value without converting it). -/
structure StoredUser where
  id : Nat
  name : String
  email : String
  password_hash : BcryptHash
  age : AgeVal
  is_active : Bool
  created_at : Nat
  updated_at : Nat
deriving DecidableEq, Repr

/-- `User.check_password(password)` from src/models/user.py. -/
def check_password (u : StoredUser) (password : String) : Bool :=
  bcrypt_checkpw password u.password_hash

/-- The dictionary produced by `User.to_dict`: `password_hash` is `none`
unless sensitive data was opted into. -/
structure UserDict where
  id : Nat
  name : String
  email : String
  age : AgeVal
  is_active : Bool
  created_at : Nat
  updated_at : Nat
  password_hash : Option BcryptHash
deriving DecidableEq, Repr

/-- `User.to_dict(include_sensitive)` from src/models/user.py. -/
def to_dict (u : StoredUser) (include_sensitive : Bool) : UserDict :=
  { id := u.id, name := u.name, email := u.email, age := u.age,
    is_active := u.is_active, created_at := u.created_at,
    updated_at := u.updated_at,
    password_hash := if include_sensitive then some u.password_hash else none }

/-- The database session state: stored rows, the auto-increment counter for
primary keys, and the current clock tick used for timestamp defaults. -/
structure DB where
  users : List StoredUser
  nextId : Nat
  now : Nat
deriving DecidableEq, Repr

/-- The payload under the `data` key of a response body. -/
inductive RespData where
  | user (u : UserDict)
  | userList (l : List UserDict)
  | auth (user : UserDict) (access_token : String) (refresh_token : String)
deriving DecidableEq, Repr

/-- The JSON response envelope with success, data, message, error, count. -/
structure ApiResponse where
  success : Bool
  data : Option RespData
  message : Option String
  error : Option String
  count : Option Nat
deriving DecidableEq, Repr

/-- An error envelope: success false and an error message. -/
def errBody (msg : Option String) : ApiResponse :=
  { success := false, data := none, message := none, error := msg, count := none }

/-- Modelled from the spec: `create_access_token(identity=str(user.id))` of
the external JWT library — an opaque token string bound to the user id. -/
def create_access_token (uid : Nat) : String :=
  "access-" ++ toString uid

/-- Modelled from the spec: `create_refresh_token(identity=str(user.id))`. -/
def create_refresh_token (uid : Nat) : String :=
  "refresh-" ++ toString uid

/-- `User.__init__(name, email, password, age)` followed by
`session.add` and `commit`: the row gets the next primary key and both
timestamp defaults are the current clock tick. -/
def insertUser (n e p : String) (age : AgeVal) (salt : String) (db : DB) :
    StoredUser × DB :=
  let u : StoredUser :=
    { id := db.nextId, name := n, email := e,
      password_hash := bcrypt_hashpw p salt, age := age, is_active := true,
      created_at := db.now, updated_at := db.now }
  (u, { users := db.users ++ [u], nextId := db.nextId + 1, now := db.now })

/-- `UserController.create_user(data)` from
src/controllers/user_controller.py, returning `(body, status, session)`.
The `salt` parameter is the fresh salt bcrypt draws for the new hash. The
unreachable 500 arm mirrors the `except` clause (a missing key after
validation would raise `KeyError`). -/
def create_user (data : Payload) (salt : String) (db : DB) :
    ApiResponse × Nat × DB :=
  match validate_data data true with
  | (false, err) => (errBody err, 400, db)
  | (true, _) =>
    match data.name, data.email, data.password with
    | some n, some e, some p =>
      if (db.users.find? (fun u => u.email == e)).isSome then
        (errBody (some "Email já cadastrado"), 409, db)
      else
        let (u, db2) := insertUser n e p (data.age.getD .aNull) salt db
        ({ success := true, data := some (.user (to_dict u false)),
           message := some "Usuário criado com sucesso", error := none,
           count := none }, 201, db2)
    | _, _, _ => (errBody (some "Erro ao criar usuário"), 500, db)

/-- `AuthController.register(data)` from src/controllers/auth_controller.py:
the same validation/uniqueness/creation path as `create_user`, plus JWT
issuance and a 201 with user and both tokens. -/
def register (data : Payload) (salt : String) (db : DB) :
    ApiResponse × Nat × DB :=
  match validate_data data true with
  | (false, err) => (errBody err, 400, db)
  | (true, _) =>
    match data.name, data.email, data.password with
    | some n, some e, some p =>
      if (db.users.find? (fun u => u.email == e)).isSome then
        (errBody (some "Email já cadastrado"), 409, db)
      else
        let (u, db2) := insertUser n e p (data.age.getD .aNull) salt db
        ({ success := true,
           data := some (.auth (to_dict u false) (create_access_token u.id)
             (create_refresh_token u.id)),
           message := some "Usuário registrado com sucesso", error := none,
           count := none }, 201, db2)
    | _, _, _ => (errBody (some "Erro ao registrar usuário"), 500, db)

/-- `User.update_from_dict(data)` from src/models/user.py: assign each of
the five recognised keys when present (re-hashing a supplied password with
the fresh `salt`) and refresh `updated_at`. -/
def update_from_dict (u : StoredUser) (data : Payload) (salt : String)
    (now : Nat) : StoredUser :=
  let u := match data.name with | some n => { u with name := n } | none => u
  let u := match data.email with | some e => { u with email := e } | none => u
  let u := match data.age with | some a => { u with age := a } | none => u
  let u := match data.password with
    | some p => { u with password_hash := bcrypt_hashpw p salt }
    | none => u
  let u := match data.is_active with
    | some b => { u with is_active := b }
    | none => u
  { u with updated_at := now }

/-- `UserController.update_user(user_id, data)` from
src/controllers/user_controller.py. `session.get` by primary key is the
first row with that id; the commit replaces that row in the store. -/
def update_user (user_id : Nat) (data : Payload) (salt : String) (db : DB) :
    ApiResponse × Nat × DB :=
  match db.users.find? (fun u => u.id == user_id) with
  | none => (errBody (some "Usuário não encontrado"), 404, db)
  | some user =>
    if data.isEmpty then (errBody (some "Dados não fornecidos"), 400, db)
    else if (match data.email with
             | some e => !(containsChar e '@')
             | none => false) then
      (errBody (some "Email deve ter formato válido"), 400, db)
    else
      match ageError data with
      | some msg => (errBody (some msg), 400, db)
      | none =>
        if (match data.email with
            | some e =>
              (db.users.find? (fun (v : StoredUser) => v.email == e && v.id != user_id)).isSome
            | none => false) then
          (errBody (some "Email já cadastrado por outro usuário"), 409, db)
        else
          let user2 := update_from_dict user data salt db.now
          ({ success := true, data := some (.user (to_dict user2 false)),
             message := some "Usuário atualizado com sucesso", error := none,
             count := none }, 200,
           { db with users := (db.users.map
               (fun (v : StoredUser) => if v.id == user_id then
                  update_from_dict v data salt db.now else v)) })

/-- `UserController.get_user_by_id(user_id)` from
src/controllers/user_controller.py (reads never change the session). -/
def get_user_by_id (user_id : Nat) (db : DB) : ApiResponse × Nat :=
  match db.users.find? (fun u => u.id == user_id) with
  | none => (errBody (some "Usuário não encontrado"), 404)
  | some user =>
    ({ success := true, data := some (.user (to_dict user false)),
       message := none, error := none, count := none }, 200)

/-- `UserController.delete_user(user_id)` from
src/controllers/user_controller.py: snapshot, then delete the row. Since
`id` is the primary key, removing the row is removing every row with that
id. -/
def delete_user (user_id : Nat) (db : DB) : ApiResponse × Nat × DB :=
  match db.users.find? (fun u => u.id == user_id) with
  | none => (errBody (some "Usuário não encontrado"), 404, db)
  | some user =>
    let user_data := to_dict user false
    ({ success := true, data := some (.user user_data),
       message := some "Usuário removido com sucesso", error := none,
       count := none }, 200,
     { db with users := db.users.filter (fun u => !(u.id == user_id)) })

/-- `AuthController.login(data)` from src/controllers/auth_controller.py
(logins never change the session, so no state is returned). The 500 arm
mirrors the `except` clause and is unreachable. -/
def login (data : Payload) (db : DB) : ApiResponse × Nat :=
  if data.isEmpty || data.email.isNone || data.password.isNone then
    (errBody (some "Email e senha são obrigatórios"), 400)
  else
    match data.email, data.password with
    | some e, some p =>
      match db.users.find? (fun u => u.email == e) with
      | none => (errBody (some "Email ou senha inválidos"), 401)
      | some user =>
        if ! check_password user p then
          (errBody (some "Email ou senha inválidos"), 401)
        else if ! user.is_active then
          (errBody (some "Usuário inativo"), 401)
        else
          ({ success := true,
             data := some (.auth (to_dict user false)
               (create_access_token user.id) (create_refresh_token user.id)),
             message := some "Login realizado com sucesso", error := none,
             count := none }, 200)
    | _, _ => (errBody (some "Erro ao realizar login"), 500)

/-- The validator exactly as the contract of the spec words it, clause by clause
in the order given in the spec: missing data; name absent or empty after trimming;
email absent, empty after trimming, or without an `@`; when a password is
required, password absent/empty then shorter than 6; age present and
non-null must parse as an integer in [0,150]; success with no message
otherwise. Written from the spec to be compared with `validate_data`. -/
def validate_spec (d : Payload) (require_password : Bool) : Bool × Option String :=
  if d.isEmpty then (false, some "Dados não fornecidos")
  else if d.name.isNone || pyStrip (d.name.getD "") = "" then
    (false, some "Nome é obrigatório")
  else if d.email.isNone || pyStrip (d.email.getD "") = "" then
    (false, some "Email é obrigatório")
  else if !(containsChar (d.email.getD "") '@') then
    (false, some "Email deve ter formato válido")
  else if require_password &&
      (d.password.isNone || pyStrip (d.password.getD "") = "") then
    (false, some "Senha é obrigatória")
  else if require_password && (d.password.getD "").length < 6 then
    (false, some "Senha deve ter pelo menos 6 caracteres")
  else
    match d.age with
    | none => (true, none)
    | some .aNull => (true, none)
    | some a =>
      match parseAge a with
      | none => (false, some "Idade deve ser um número válido")
      | some k =>
        if 0 ≤ k ∧ k ≤ 150 then (true, none)
        else (false, some "Idade deve estar entre 0 e 150 anos")

/-- The age clause of both validator variants, stated as the spec words it:
absent or null age passes; otherwise the value must parse as an integer in
[0,150], with the parse failure reported before the range failure. -/
theorem ageError_eq_spec (d : Payload) :
    (match ageError d with
     | some msg => ((false : Bool), some msg)
     | none => (true, (none : Option String))) =
    (match d.age with
     | none => ((true : Bool), (none : Option String))
     | some .aNull => (true, none)
     | some a =>
       match parseAge a with
       | none => (false, some "Idade deve ser um número válido")
       | some k =>
         if 0 ≤ k ∧ k ≤ 150 then (true, none)
         else (false, some "Idade deve estar entre 0 e 150 anos")) := by
  rcases d with ⟨name, email, password, age, act, extra⟩
  rcases age with _ | ⟨n | s | _⟩ <;>
    simp only [ageError, parseAge] <;> try rfl
  · split_ifs <;> simp_all <;> omega
  · rcases hps : pyInt s with _ | k <;> simp [hps] <;>
      split_ifs <;> simp_all <;> omega

/-- `validate_data` agrees with the clause-by-clause spec reading
(shared workhorse lemma). -/
theorem validate_data_eq_spec (d : Payload) (rp : Bool) :
    validate_data d rp = validate_spec d rp := by
  unfold validate_data validate_spec
  by_cases hE : d.isEmpty = true <;> simp [hE]
  rcases hn : d.name with _ | n <;> simp [hn]
  by_cases hnt : pyStrip n = "" <;> simp [hnt]
  rcases he : d.email with _ | e <;> simp [he]
  by_cases het : pyStrip e = "" <;> simp [het]
  by_cases hat : containsChar e '@' <;> simp [hat]
  cases rp <;> simp
  · exact ageError_eq_spec d
  · rcases hp : d.password with _ | p <;> simp [hp]
    by_cases hpt : pyStrip p = "" <;> simp [hpt]
    by_cases hpl : p.length < 6 <;> simp [hpl]
    exact ageError_eq_spec d

/-- A payload the validator accepts with a required password carries a
name, an email and a password. -/
theorem validate_true_fields (d : Payload)
    (h : (validate_data d true).fst = true) :
    d.name.isSome ∧ d.email.isSome ∧ d.password.isSome := by
  rw [validate_data_eq_spec] at h
  unfold validate_spec at h
  split_ifs at h with h1 h2 h3 h4 h5 h6 <;>
    simp_all [Option.isSome_iff_ne_none]

/-- C1: `validate_data(data, requirePassword)` decides exactly the rule
list of the validator contract of the spec: failure on missing data, then on a
name absent or blank after trimming, then on an email absent, blank after
trimming, or lacking an `@`, then (when a password is required) on a
password absent/blank or shorter than 6 characters, then on an age present
and non-null that does not parse as an integer in [0,150]; success with no
message otherwise, the message of the first failing rule being reported in this
order. -/
theorem validate_data_meets_spec (d : Payload) (rp : Bool) :
    validate_data d rp = validate_spec d rp :=
  validate_data_eq_spec d rp

/-- C8: for the (spec-modelled) bcrypt hashing and checking operations of
the user entity, verifying a password against its own fresh-salt hash
succeeds, and verifying it against the hash of any other password fails. -/
theorem bcrypt_hash_verify_roundtrip (p p2 salt : String) :
    bcrypt_checkpw p (bcrypt_hashpw p salt) = true ∧
    (p ≠ p2 → bcrypt_checkpw p (bcrypt_hashpw p2 salt) = false) := by
  constructor
  · simp [bcrypt_checkpw, bcrypt_hashpw]
  · intro h
    simp only [bcrypt_checkpw, bcrypt_hashpw, beq_eq_false_iff_ne, ne_eq]
    exact fun hh => h hh.symm

/-- Witness for C8 at concrete passwords. -/
theorem bcrypt_hash_verify_roundtrip_witness :
    ("secret1" ≠ "hunter2" ∧
      bcrypt_checkpw "secret1" (bcrypt_hashpw "secret1" "salt0") = true) ∧
    bcrypt_checkpw "secret1" (bcrypt_hashpw "hunter2" "salt0") = false :=
  ⟨⟨by decide, (bcrypt_hash_verify_roundtrip "secret1" "hunter2" "salt0").1⟩,
    (bcrypt_hash_verify_roundtrip "secret1" "hunter2" "salt0").2 (by decide)⟩

/-- A concrete valid creation payload used by the witnesses. -/
def anaPayload : Payload :=
  { name := some "Ana", email := some "ana@x.com", password := some "secret1",
    age := some (.aInt 28), is_active := none, extraKeys := [] }

/-- The empty store with primary keys starting at 1, at clock tick 0. -/
def emptyDB : DB := { users := [], nextId := 1, now := 0 }

/-- C2: Create returns 400 with the validator message when validation
with a required password fails; 409 when a stored user already has the
email of the payload; otherwise it persists the new user with the password
hashed and returns 201 with success true, a success message and the
serialized user whose dictionary carries no password hash. -/
theorem create_user_meets_spec (data : Payload) (salt : String) (db : DB) :
    ((validate_data data true).fst = false →
      create_user data salt db =
        (errBody (validate_data data true).snd, 400, db)) ∧
    (∀ e, (validate_data data true).fst = true → data.email = some e →
      (∃ u ∈ db.users, u.email = e) →
      create_user data salt db =
        (errBody (some "Email já cadastrado"), 409, db)) ∧
    (∀ n e p, (validate_data data true).fst = true →
      data.name = some n → data.email = some e → data.password = some p →
      (∀ u ∈ db.users, u.email ≠ e) →
      create_user data salt db =
        ({ success := true,
           data := some (.user
             { id := db.nextId, name := n, email := e,
               age := data.age.getD .aNull, is_active := true,
               created_at := db.now, updated_at := db.now,
               password_hash := none }),
           message := some "Usuário criado com sucesso", error := none,
           count := none }, 201,
         { users := db.users ++
             [{ id := db.nextId, name := n, email := e,
                password_hash := bcrypt_hashpw p salt,
                age := data.age.getD .aNull, is_active := true,
                created_at := db.now, updated_at := db.now }],
           nextId := db.nextId + 1, now := db.now })) := by
  refine ⟨?_, ?_, ?_⟩
  · intro h
    rcases hv : validate_data data true with ⟨b, msg⟩
    rw [hv] at h
    have hb : b = false := h
    subst hb
    simp [create_user, hv]
  · intro e h he hex
    obtain ⟨hn0, _, hp0⟩ := validate_true_fields data h
    rcases hn : data.name with _ | n
    · simp [hn] at hn0
    rcases hp : data.password with _ | p
    · simp [hp] at hp0
    rcases hv : validate_data data true with ⟨b, msg⟩
    rw [hv] at h
    have hb : b = true := h
    subst hb
    have hfind : (db.users.find? (fun u => u.email == e)).isSome = true := by
      rw [List.find?_isSome]
      obtain ⟨u, hu, hue⟩ := hex
      exact ⟨u, hu, by simp [hue]⟩
    simp [create_user, hv, hn, he, hp, hfind]
  · intro n e p h hn he hp hnone
    rcases hv : validate_data data true with ⟨b, msg⟩
    rw [hv] at h
    have hb : b = true := h
    subst hb
    have hfind : db.users.find? (fun u => u.email == e) = none := by
      rw [List.find?_eq_none]
      intro u hu
      simp [hnone u hu]
    simp [create_user, hv, hn, he, hp, hfind, insertUser, to_dict]

/-- Witness for C2: creating Ana in the empty store. -/
theorem create_user_meets_spec_witness :
    create_user anaPayload "salt0" emptyDB =
      ({ success := true,
         data := some (.user
           { id := 1, name := "Ana", email := "ana@x.com",
             age := .aInt 28, is_active := true, created_at := 0,
             updated_at := 0, password_hash := none }),
         message := some "Usuário criado com sucesso", error := none,
         count := none }, 201,
       { users :=
           [{ id := 1, name := "Ana", email := "ana@x.com",
              password_hash := bcrypt_hashpw "secret1" "salt0",
              age := .aInt 28, is_active := true, created_at := 0,
              updated_at := 0 }],
         nextId := 2, now := 0 }) :=
  (create_user_meets_spec anaPayload "salt0" emptyDB).2.2 "Ana" "ana@x.com"
    "secret1" (by decide) rfl rfl rfl
    (by intro u hu; simp [emptyDB] at hu)

/-- The stored row obtained by creating Ana in the empty store. -/
def anaUser : StoredUser :=
  { id := 1, name := "Ana", email := "ana@x.com",
    password_hash := bcrypt_hashpw "secret1" "salt0", age := .aInt 28,
    is_active := true, created_at := 0, updated_at := 0 }

/-- A one-user store at a later clock tick, used by the witnesses. -/
def db1 : DB := { users := [anaUser], nextId := 2, now := 5 }

/-- A payload supplying only an age. -/
def ageOnly (a : AgeVal) : Payload :=
  { name := none, email := none, password := none, age := some a,
    is_active := none, extraKeys := [] }

/-- C3: Update returns 404 when the id is absent and 400 when the payload
is empty; otherwise (the inline checks passing) it applies exactly the
supplied fields via `update_from_dict`, refreshes the updated timestamp,
and returns 200 with the serialized user; an age-only update rewrites only
the age field and the updated timestamp. -/
theorem update_user_meets_spec (user_id : Nat) (data : Payload)
    (salt : String) (db : DB) :
    (db.users.find? (fun v => v.id == user_id) = none →
      update_user user_id data salt db =
        (errBody (some "Usuário não encontrado"), 404, db)) ∧
    (∀ u, db.users.find? (fun v => v.id == user_id) = some u →
      data.isEmpty = true →
      update_user user_id data salt db =
        (errBody (some "Dados não fornecidos"), 400, db)) ∧
    (∀ u, db.users.find? (fun v => v.id == user_id) = some u →
      data.isEmpty = false →
      (∀ e, data.email = some e → containsChar e '@' = true ∧
        db.users.find? (fun v => v.email == e && v.id != user_id) = none) →
      ageError data = none →
      update_user user_id data salt db =
        ({ success := true,
           data := some (.user
             (to_dict (update_from_dict u data salt db.now) false)),
           message := some "Usuário atualizado com sucesso", error := none,
           count := none }, 200,
         { db with users := (db.users.map (fun v => if v.id == user_id then
             update_from_dict v data salt db.now else v)) })) ∧
    (∀ u a, update_from_dict u (ageOnly a) salt db.now =
      { u with age := a, updated_at := db.now }) := by
  refine ⟨?_, ?_, ?_, ?_⟩
  · intro h
    simp [update_user, h]
  · intro u hu he
    simp [update_user, hu, he]
  · intro u hu hne hemail hage
    rcases hde : data.email with _ | e
    · simp [update_user, hu, hne, hde, hage]
    · obtain ⟨hat, hun⟩ := hemail e hde
      simp [update_user, hu, hne, hde, hage, hat, hun]
  · intro u a
    simp [update_from_dict, ageOnly]

/-- Witness for C3: an age-only update on the one-user store. -/
theorem update_user_meets_spec_witness :
    update_user 1 (ageOnly (.aInt 29)) "t" db1 =
      ({ success := true,
         data := some (.user
           { id := 1, name := "Ana", email := "ana@x.com", age := .aInt 29,
             is_active := true, created_at := 0, updated_at := 5,
             password_hash := none }),
         message := some "Usuário atualizado com sucesso", error := none,
         count := none }, 200,
       { users :=
           [{ id := 1, name := "Ana", email := "ana@x.com",
              password_hash := bcrypt_hashpw "secret1" "salt0",
              age := .aInt 29, is_active := true, created_at := 0,
              updated_at := 5 }],
         nextId := 2, now := 5 }) :=
  (update_user_meets_spec 1 (ageOnly (.aInt 29)) "t" db1).2.2.1 anaUser
    (by decide) (by decide)
    (fun e he => absurd he (by simp [ageOnly])) (by decide)

/-- C10: an update whose non-empty payload carries none of the five
recognised keys succeeds with 200 and rewrites only the updated timestamp,
leaving every other field of the record unchanged. -/
theorem update_user_extra_keys_only (user_id : Nat) (data : Payload)
    (salt : String) (db : DB) (u : StoredUser)
    (hu : db.users.find? (fun v => v.id == user_id) = some u)
    (hname : data.name = none) (hemail : data.email = none)
    (hpw : data.password = none) (hage : data.age = none)
    (hact : data.is_active = none) (hne : data.extraKeys ≠ []) :
    update_user user_id data salt db =
      ({ success := true,
         data := some (.user (to_dict { u with updated_at := db.now } false)),
         message := some "Usuário atualizado com sucesso", error := none,
         count := none }, 200,
       { db with users := (db.users.map (fun v => if v.id == user_id then
           { v with updated_at := db.now } else v)) }) := by
  have hkey : data.isEmpty = false := by
    simp [Payload.isEmpty, hne]
  simp [update_user, hu, hkey, hemail, hage, ageError, update_from_dict,
    hname, hpw, hact]

/-- Witness for C10: a payload carrying only an unrecognised key. -/
theorem update_user_extra_keys_only_witness :
    update_user 1
      { name := none, email := none, password := none, age := none,
        is_active := none, extraKeys := ["role"] } "t" db1 =
      ({ success := true,
         data := some (.user
           { id := 1, name := "Ana", email := "ana@x.com", age := .aInt 28,
             is_active := true, created_at := 0, updated_at := 5,
             password_hash := none }),
         message := some "Usuário atualizado com sucesso", error := none,
         count := none }, 200,
       { users :=
           [{ id := 1, name := "Ana", email := "ana@x.com",
              password_hash := bcrypt_hashpw "secret1" "salt0",
              age := .aInt 28, is_active := true, created_at := 0,
              updated_at := 5 }],
         nextId := 2, now := 5 }) :=
  update_user_extra_keys_only 1
    { name := none, email := none, password := none, age := none,
      is_active := none, extraKeys := ["role"] } "t" db1 anaUser
    (by decide) rfl rfl rfl rfl rfl (by decide)

/-- C6: Delete returns 404 when no user has the id; otherwise it returns
200 with the pre-removal serialized snapshot and a success message and
removes the row; after a successful delete, Get-by-id on the same id is a
404 with the not-found error. -/
theorem delete_user_meets_spec (user_id : Nat) (db : DB) :
    (db.users.find? (fun v => v.id == user_id) = none →
      delete_user user_id db =
        (errBody (some "Usuário não encontrado"), 404, db)) ∧
    (∀ u, db.users.find? (fun v => v.id == user_id) = some u →
      delete_user user_id db =
        ({ success := true, data := some (.user (to_dict u false)),
           message := some "Usuário removido com sucesso", error := none,
           count := none }, 200,
         { db with users := (db.users.filter (fun v => !(v.id == user_id))) })) ∧
    (∀ r db2, delete_user user_id db = (r, 200, db2) →
      get_user_by_id user_id db2 =
        (errBody (some "Usuário não encontrado"), 404)) := by
  refine ⟨?_, ?_, ?_⟩
  · intro h
    simp [delete_user, h]
  · intro u hu
    simp [delete_user, hu]
  · intro r db2 h
    rcases hf : db.users.find? (fun v => v.id == user_id) with _ | u
    · rw [delete_user, hf] at h
      simp at h
    · rw [delete_user, hf] at h
      have hdb2 :
          ({ db with
             users := (db.users.filter (fun v => !(v.id == user_id))) } : DB) =
            db2 :=
        congrArg (fun t => t.2.2) h
      have hnone : db2.users.find? (fun v => v.id == user_id) = none := by
        rw [← hdb2]
        rw [List.find?_eq_none]
        intro v hv
        have := (List.mem_filter.mp hv).2
        simpa using this
      simp [get_user_by_id, hnone]

/-- Witness for C6: deleting Ana, then fetching her id. -/
theorem delete_user_meets_spec_witness :
    delete_user 1 db1 =
      ({ success := true,
         data := some (.user
           { id := 1, name := "Ana", email := "ana@x.com", age := .aInt 28,
             is_active := true, created_at := 0, updated_at := 0,
             password_hash := none }),
         message := some "Usuário removido com sucesso", error := none,
         count := none }, 200, { users := [], nextId := 2, now := 5 }) ∧
    get_user_by_id 1 { users := [], nextId := 2, now := 5 } =
      (errBody (some "Usuário não encontrado"), 404) :=
  ⟨(delete_user_meets_spec 1 db1).2.1 anaUser (by decide),
   (delete_user_meets_spec 1 db1).2.2 _ _
     ((delete_user_meets_spec 1 db1).2.1 anaUser (by decide))⟩

/-- C4: Login is 400 without email or password in the payload; 401 with
one identical generic message both when no user has the email and when the
password check fails; 401 with the inactive message when credentials
verify but the account is inactive; otherwise 200 with the serialized
user and both tokens present. -/
theorem login_meets_spec (data : Payload) (db : DB) :
    ((data.isEmpty || data.email.isNone || data.password.isNone) = true →
      login data db = (errBody (some "Email e senha são obrigatórios"), 400)) ∧
    (∀ e p, data.isEmpty = false → data.email = some e →
      data.password = some p →
      db.users.find? (fun u => u.email == e) = none →
      login data db = (errBody (some "Email ou senha inválidos"), 401)) ∧
    (∀ e p u, data.isEmpty = false → data.email = some e →
      data.password = some p →
      db.users.find? (fun u => u.email == e) = some u →
      check_password u p = false →
      login data db = (errBody (some "Email ou senha inválidos"), 401)) ∧
    (∀ e p u, data.isEmpty = false → data.email = some e →
      data.password = some p →
      db.users.find? (fun u => u.email == e) = some u →
      check_password u p = true → u.is_active = false →
      login data db = (errBody (some "Usuário inativo"), 401)) ∧
    (∀ e p u, data.isEmpty = false → data.email = some e →
      data.password = some p →
      db.users.find? (fun u => u.email == e) = some u →
      check_password u p = true → u.is_active = true →
      login data db =
        ({ success := true,
           data := some (.auth (to_dict u false) (create_access_token u.id)
             (create_refresh_token u.id)),
           message := some "Login realizado com sucesso", error := none,
           count := none }, 200)) := by
  refine ⟨?_, ?_, ?_, ?_, ?_⟩
  · intro h
    unfold login
    rw [h]
    simp
  · intro e p hne he hp hf
    simp [login, hne, he, hp, hf]
  · intro e p u hne he hp hf hc
    simp [login, hne, he, hp, hf, hc]
  · intro e p u hne he hp hf hc ha
    simp [login, hne, he, hp, hf, hc, ha]
  · intro e p u hne he hp hf hc ha
    simp [login, hne, he, hp, hf, hc, ha]

/-- Witness for C4: a correct login on the one-user store. -/
theorem login_meets_spec_witness :
    login
      { name := none, email := some "ana@x.com", password := some "secret1",
        age := none, is_active := none, extraKeys := [] } db1 =
      ({ success := true,
         data := some (.auth
           { id := 1, name := "Ana", email := "ana@x.com", age := .aInt 28,
             is_active := true, created_at := 0, updated_at := 0,
             password_hash := none } "access-1" "refresh-1"),
         message := some "Login realizado com sucesso", error := none,
         count := none }, 200) :=
  (login_meets_spec
      { name := none, email := some "ana@x.com", password := some "secret1",
        age := none, is_active := none, extraKeys := [] } db1).2.2.2.2
    "ana@x.com" "secret1" anaUser (by decide) rfl rfl (by decide)
    (by decide) (by decide)

/-- A creation payload whose age is out of range above. -/
def tooOldPayload : Payload :=
  { name := some "Ana", email := some "ana@x.com", password := some "secret1",
    age := some (.aInt 151), is_active := none, extraKeys := [] }

/-- C7: the age bounds are inclusive: an update carrying age -1 or 151 is a
400, an age-only update carrying 0 or 150 is a 200, and the creation-path
validator accepts an integer age exactly when it lies in [0,150]. -/
theorem age_bounds_inclusive (user_id : Nat) (d : Payload) (salt : String)
    (db : DB) :
    (∀ u, db.users.find? (fun v => v.id == user_id) = some u →
      (d.age = some (.aInt (-1)) ∨ d.age = some (.aInt 151)) →
      (update_user user_id d salt db).2.1 = 400) ∧
    (∀ u a, db.users.find? (fun v => v.id == user_id) = some u →
      (a = (0 : Int) ∨ a = 150) →
      (update_user user_id (ageOnly (.aInt a)) salt db).2.1 = 200) ∧
    (∀ n e p k, d.name = some n → pyStrip n ≠ "" →
      d.email = some e → pyStrip e ≠ "" → containsChar e '@' = true →
      d.password = some p → pyStrip p ≠ "" → ¬ p.length < 6 →
      d.age = some (.aInt k) →
      ((validate_data d true).fst = true ↔ 0 ≤ k ∧ k ≤ 150)) := by
  refine ⟨?_, ?_, ?_⟩
  · intro u hu hage
    have hkey : d.isEmpty = false := by
      rcases hage with h | h <;> simp [Payload.isEmpty, h]
    have hae : ageError d = some "Idade deve estar entre 0 e 150 anos" := by
      rcases hage with h | h <;> simp [ageError, h, parseAge]
    rcases hde : d.email with _ | e
    · simp [update_user, hu, hkey, hde, hae]
    · by_cases hat : containsChar e '@' = true
      · simp [update_user, hu, hkey, hde, hat, hae]
      · simp [update_user, hu, hkey, hde, hat]
  · intro u a hu ha
    rcases ha with h | h <;> subst h <;>
      norm_num [update_user, hu, ageOnly, Payload.isEmpty, ageError, parseAge]
  · intro n e p k hn hnb he heb hat hp hpb hpl hk
    rw [validate_data_eq_spec]
    unfold validate_spec
    have h1 : d.isEmpty = false := by simp [Payload.isEmpty, hn]
    simp only [h1, hn, hnb, he, heb, hat, hp, hpb, hpl, hk, parseAge,
      Option.isNone_none, Option.isNone_some, Option.getD_some,
      Bool.false_eq_true, if_false, Bool.or_eq_true, decide_eq_true_eq,
      Bool.not_eq_true, Bool.and_eq_true, false_or]
    simp [hnb, heb, hat, hpb, hpl]
    split_ifs with h
    · simp [h]
    · simp [h]

/-- Witness for C7: the boundary ages on the one-user store and the
validator at age 151. -/
theorem age_bounds_inclusive_witness :
    (update_user 1 (ageOnly (.aInt (-1))) "t" db1).2.1 = 400 ∧
    (update_user 1 (ageOnly (.aInt 150)) "t" db1).2.1 = 200 ∧
    ((validate_data tooOldPayload true).fst = true ↔
      0 ≤ (151 : Int) ∧ (151 : Int) ≤ 150) :=
  ⟨(age_bounds_inclusive 1 (ageOnly (.aInt (-1))) "t" db1).1 anaUser
     (by decide) (Or.inl rfl),
   (age_bounds_inclusive 1 (ageOnly (.aInt 150)) "t" db1).2.1 anaUser 150
     (by decide) (Or.inr rfl),
   (age_bounds_inclusive 1 tooOldPayload "t" db1).2.2 "Ana" "ana@x.com"
     "secret1" 151 rfl (by decide) rfl (by decide) (by decide) rfl
     (by decide) (by decide) rfl⟩

/-- The name field after `update_from_dict`: the supplied name when the
key is present, the old one otherwise. -/
theorem update_from_dict_name (v : StoredUser) (data : Payload)
    (salt : String) (now : Nat) :
    (update_from_dict v data salt now).name = data.name.getD v.name := by
  rcases data with ⟨n, e, p, a, b, x⟩
  rcases n with _ | n <;> rcases e with _ | e <;> rcases p with _ | p <;>
    rcases a with _ | a <;> rcases b with _ | b <;>
      simp [update_from_dict]

/-- A payload the validator accepts carries a non-blank name. -/
theorem validate_true_name_nonblank (d : Payload)
    (h : (validate_data d true).fst = true) (n : String)
    (hn : d.name = some n) : pyStrip n ≠ "" := by
  rw [validate_data_eq_spec] at h
  unfold validate_spec at h
  split_ifs at h with h1 h2 h3 h4 h5 h6 <;> simp_all

/-- A payload supplying a blank name and nothing else. -/
def blankNamePayload : Payload :=
  { name := some "", email := none, password := none, age := none,
    is_active := none, extraKeys := [] }

/-- Counterexample to C9 as stated: creating Ana in the empty store
succeeds with 201, an update supplying an empty name then succeeds with
200, and the store is left holding a user whose name is blank. -/
theorem blank_name_reachable :
    (create_user anaPayload "salt0" emptyDB).2.1 = 201 ∧
    (update_user 1 blankNamePayload "t"
      (create_user anaPayload "salt0" emptyDB).2.2).2.1 = 200 ∧
    ((update_user 1 blankNamePayload "t"
      (create_user anaPayload "salt0" emptyDB).2.2).2.2.users.all
        (fun u => !(pyStrip u.name == ""))) = false := by
  decide

/-- C9 amended: Create and Register preserve (and establish for the row
they add) the invariant that every stored name is non-blank; Update
preserves it exactly when any supplied name is non-blank after trimming —
the update path itself does not validate the name, so a blank supplied
name breaks the invariant. -/
theorem name_invariant_preservation (data : Payload) (salt : String)
    (db : DB) (hdb : ∀ u ∈ db.users, pyStrip u.name ≠ "") :
    (∀ u ∈ (create_user data salt db).2.2.users, pyStrip u.name ≠ "") ∧
    (∀ u ∈ (register data salt db).2.2.users, pyStrip u.name ≠ "") ∧
    (∀ user_id, (∀ n, data.name = some n → pyStrip n ≠ "") →
      ∀ u ∈ (update_user user_id data salt db).2.2.users,
        pyStrip u.name ≠ "") := by
  have hreg_eq : (register data salt db).2.2 = (create_user data salt db).2.2 := by
    rcases hv : validate_data data true with ⟨b, msg⟩
    cases b
    · simp [register, create_user, hv]
    · rcases hn : data.name with _ | n
      · simp [register, create_user, hv, hn]
      · rcases he : data.email with _ | e
        · simp [register, create_user, hv, hn, he]
        · rcases hp : data.password with _ | p
          · simp [register, create_user, hv, hn, he, hp]
          · by_cases hf : (db.users.find? (fun u => u.email == e)).isSome = true
            · simp [register, create_user, hv, hn, he, hp, hf]
            · simp [register, create_user, hv, hn, he, hp, hf, insertUser]
  have hcreate : ∀ u ∈ (create_user data salt db).2.2.users,
      pyStrip u.name ≠ "" := by
    rcases hv : validate_data data true with ⟨b, msg⟩
    cases b
    · simp only [create_user, hv]
      exact hdb
    · have hval : (validate_data data true).fst = true := by rw [hv]
      obtain ⟨hn0, he0, hp0⟩ := validate_true_fields data hval
      rcases hn : data.name with _ | n
      · simp [hn] at hn0
      rcases he : data.email with _ | e
      · simp [he] at he0
      rcases hp : data.password with _ | p
      · simp [hp] at hp0
      by_cases hf : (db.users.find? (fun u => u.email == e)).isSome = true
      · simp only [create_user, hv, hn, he, hp, hf, if_true]
        exact hdb
      · intro u hu
        simp only [create_user, hv, hn, he, hp, hf, if_false, insertUser] at hu
        simp at hu
        rcases hu with hu | hu
        · exact hdb u hu
        · have hnb := validate_true_name_nonblank data hval n hn
          simp [hu, hnb]
  refine ⟨hcreate, hreg_eq ▸ hcreate, ?_⟩
  intro user_id hname u hu
  rcases hfind : db.users.find? (fun v => v.id == user_id) with _ | u0
  · simp only [update_user, hfind] at hu
    exact hdb u hu
  · simp only [update_user, hfind] at hu
    by_cases h1 : data.isEmpty = true
    · simp [h1] at hu
      exact hdb u hu
    · by_cases h2 : (match data.email with
        | some e => !(containsChar e '@')
        | none => false) = true
      · simp [h1, h2] at hu
        exact hdb u hu
      · rcases hae : ageError data with _ | m
        · by_cases h3 : (match data.email with
            | some e =>
              (db.users.find? (fun (v : StoredUser) =>
                v.email == e && v.id != user_id)).isSome
            | none => false) = true
          · simp [h1, h2, hae, h3] at hu
            exact hdb u hu
          · simp [h1, h2, hae, h3] at hu
            obtain ⟨v, hv, rfl⟩ := hu
            by_cases hid : v.id = user_id
            · rcases hdn : data.name with _ | n <;>
                simp [hid, update_from_dict_name, hdn]
              · exact hdb v hv
              · exact hname n hdn
            · simp [hid]
              exact hdb v hv
        · simp [h1, h2, hae] at hu
          exact hdb u hu

/-- Witness for the amended C9 preservation at a concrete store. -/
theorem name_invariant_preservation_witness :
    ((create_user anaPayload "salt0" emptyDB).2.2.users.all
      (fun u => !(pyStrip u.name == ""))) = true := by
  have h := (name_invariant_preservation anaPayload "salt0" emptyDB
    (fun u hu => absurd hu (by simp [emptyDB]))).1
  rw [List.all_eq_true]
  intro u hu
  simpa using h u hu

/-- A creation that returned 201 stored a row carrying the supplied
email. -/
theorem create_user_201_email (data : Payload) (salt : String) (db : DB)
    (r : ApiResponse) (db2 : DB)
    (h : create_user data salt db = (r, 201, db2)) :
    ∃ e, data.email = some e ∧ ∃ u ∈ db2.users, u.email = e := by
  rcases hv : validate_data data true with ⟨b, msg⟩
  cases b
  · simp only [create_user, hv] at h
    simp at h
  · have hval : (validate_data data true).fst = true := by rw [hv]
    obtain ⟨hn0, he0, hp0⟩ := validate_true_fields data hval
    rcases hn : data.name with _ | n
    · simp [hn] at hn0
    rcases he : data.email with _ | e
    · simp [he] at he0
    rcases hp : data.password with _ | p
    · simp [hp] at hp0
    by_cases hf : (db.users.find? (fun u => u.email == e)).isSome = true
    · simp only [create_user, hv, hn, he, hp, hf, if_true] at h
      simp at h
    · simp only [create_user, hv, hn, he, hp, hf, if_false, insertUser] at h
      have hdb2 :
          ({ users := db.users ++
               [{ id := db.nextId, name := n, email := e,
                  password_hash := bcrypt_hashpw p salt,
                  age := data.age.getD .aNull, is_active := true,
                  created_at := db.now, updated_at := db.now }],
             nextId := db.nextId + 1, now := db.now } : DB) = db2 :=
        congrArg (fun t => t.2.2) h
      refine ⟨e, rfl, ?_⟩
      refine ⟨{ id := db.nextId, name := n, email := e,
                password_hash := bcrypt_hashpw p salt,
                age := data.age.getD .aNull, is_active := true,
                created_at := db.now, updated_at := db.now }, ?_, rfl⟩
      rw [← hdb2]
      exact List.mem_append_right _ (by simp)

/-- C5: the creation paths (Create and Register) answer 409 whenever some
stored row already has the email of the payload — in particular a second
same-email creation after a successful one is a 409 — and Update answers
409 exactly for a conflict with a different id: a supplied email already
held by another row is refused, while an update keeping the own
email (unique in the store) is never refused as a conflict. -/
theorem email_uniqueness_meets_spec (data d2 : Payload) (salt s2 : String)
    (db : DB) (user_id : Nat) :
    (∀ e, data.email = some e → (validate_data data true).fst = true →
      (∃ u ∈ db.users, u.email = e) →
      (create_user data salt db).2.1 = 409 ∧
      (register data salt db).2.1 = 409) ∧
    (∀ r db2, create_user data salt db = (r, 201, db2) →
      d2.email = data.email → (validate_data d2 true).fst = true →
      (create_user d2 s2 db2).2.1 = 409) ∧
    (∀ u e, db.users.find? (fun v => v.id == user_id) = some u →
      data.isEmpty = false → data.email = some e →
      containsChar e '@' = true → ageError data = none →
      (∃ v ∈ db.users, v.email = e ∧ v.id ≠ user_id) →
      (update_user user_id data salt db).2.1 = 409) ∧
    (∀ u, db.users.find? (fun v => v.id == user_id) = some u →
      data.email = some u.email →
      (∀ v ∈ db.users, v.email = u.email → v.id = u.id) →
      (update_user user_id data salt db).2.1 ≠ 409) := by
  refine ⟨?_, ?_, ?_, ?_⟩
  · intro e he hval hex
    obtain ⟨hn0, he0, hp0⟩ := validate_true_fields data hval
    rcases hn : data.name with _ | n
    · simp [hn] at hn0
    rcases hp : data.password with _ | p
    · simp [hp] at hp0
    rcases hv : validate_data data true with ⟨b, msg⟩
    rw [hv] at hval
    have hb : b = true := hval
    subst hb
    have hfind : (db.users.find? (fun u => u.email == e)).isSome = true := by
      rw [List.find?_isSome]
      obtain ⟨u, hu, hue⟩ := hex
      exact ⟨u, hu, by simp [hue]⟩
    constructor
    · simp [create_user, hv, hn, he, hp, hfind]
    · simp [register, hv, hn, he, hp, hfind]
  · intro r db2 h201 hemail hval2
    obtain ⟨e, he, u, hu, hue⟩ := create_user_201_email data salt db r db2 h201
    obtain ⟨hn0, he0, hp0⟩ := validate_true_fields d2 hval2
    rcases hn2 : d2.name with _ | n2
    · simp [hn2] at hn0
    rcases hp2 : d2.password with _ | p2
    · simp [hp2] at hp0
    have he2 : d2.email = some e := by rw [hemail, he]
    rcases hv2 : validate_data d2 true with ⟨b2, msg2⟩
    rw [hv2] at hval2
    have hb2 : b2 = true := hval2
    subst hb2
    have hfind : (db2.users.find? (fun v => v.email == e)).isSome = true := by
      rw [List.find?_isSome]
      exact ⟨u, hu, by simp [hue]⟩
    simp [create_user, hv2, hn2, he2, hp2, hfind]
  · intro u e hu hne he hat hae hex
    have hfind : (db.users.find? (fun (v : StoredUser) =>
        v.email == e && v.id != user_id)).isSome = true := by
      rw [List.find?_isSome]
      obtain ⟨v, hv, hve, hvid⟩ := hex
      exact ⟨v, hv, by simp [hve, hvid]⟩
    simp [update_user, hu, hne, he, hat, hae, hfind]
  · intro u hu he huniq
    have huid : u.id = user_id := by
      have := List.find?_some hu
      simpa using this
    have hnone : db.users.find? (fun (v : StoredUser) =>
        v.email == u.email && v.id != user_id) = none := by
      rw [List.find?_eq_none]
      intro v hv
      by_cases hve : v.email = u.email
      · have hvid : v.id = u.id := huniq v hv hve
        simp [hve, hvid, huid]
      · simp [hve]
    by_cases h1 : data.isEmpty = true
    · simp [update_user, hu, h1]
    · by_cases hat : containsChar u.email '@' = true
      · rcases hae : ageError data with _ | m
        · simp [update_user, hu, h1, he, hat, hae, hnone]
        · simp [update_user, hu, h1, he, hat, hae]
      · simp [update_user, hu, h1, he, hat]

/-- Witness for C5: a duplicate creation and registration are refused on
the one-user store; an update keeping the own email of Ana is not refused as a
conflict. -/
theorem email_uniqueness_meets_spec_witness :
    ((create_user anaPayload "s2" db1).2.1 = 409 ∧
      (register anaPayload "s2" db1).2.1 = 409) ∧
    (update_user 1
      { name := none, email := some "ana@x.com", password := none,
        age := none, is_active := none, extraKeys := [] } "t" db1).2.1 ≠ 409 :=
  ⟨(email_uniqueness_meets_spec anaPayload anaPayload "s2" "s2" db1 1).1
     "ana@x.com" rfl (by decide) ⟨anaUser, by simp [db1], rfl⟩,
   (email_uniqueness_meets_spec
      { name := none, email := some "ana@x.com", password := none,
        age := none, is_active := none, extraKeys := [] } anaPayload "t" "t"
      db1 1).2.2.2 anaUser (by decide) rfl (by decide)⟩

end PicPay
